import Mathlib

/-!
Shallow embedding of the SQL query builder from
`internal/repo/builder/builder.go` (package `builder`), together with
theorems checking the specification's statements about it.

Go values of type `any` stored in the builder's argument lists are never
inspected by the builder; they are modelled by the closed type `Val`
covering the kinds of arguments appearing in the repository.  Go methods
have pointer receivers and mutate the pointed-to struct; each fluent
method is embedded as the function from the receiver's pre-state to its
post-state, which is also the value the method returns (it returns its
receiver).
-/

/-- An argument value carried opaquely by the builder (Go `any`). -/
inductive Val where
  | int (n : Int)
  | str (s : String)
deriving Repr, DecidableEq

/-- One SET clause: Go struct `setClause { clause string; args []any }`. -/
structure SetClause where
  clause : String
  args : List Val
deriving Repr, DecidableEq

/-- One WHERE condition: Go struct `whereCondition { condition string; args []any }`. -/
structure WhereCondition where
  condition : String
  args : List Val
deriving Repr, DecidableEq

/-- Go struct `SQLBuilder` (builder.go lines 54-66), field for field.
`queryType` is one of "SELECT", "INSERT", "UPDATE", "DELETE", or "" when
no entry method was called (the zero value of a Go string). -/
structure SQLBuilder where
  queryType : String
  selectCols : List String
  tableName : String
  insertCols : List String
  returning : List String
  values : List Val
  setClauses : List SetClause
  whereConds : List WhereCondition
  orderByCol : String
  limitVal : Int
  offsetVal : Int
deriving Repr, DecidableEq

/-- Go source `NewSQLBuilder` (builder.go lines 79-89): empty slices, sentinel -1
for limit and offset, zero-value strings elsewhere. -/
def NewSQLBuilder : SQLBuilder :=
  { queryType := ""
    selectCols := []
    tableName := ""
    insertCols := []
    returning := []
    values := []
    setClauses := []
    whereConds := []
    orderByCol := ""
    limitVal := -1
    offsetVal := -1 }

/-- Go source `Select` (builder.go lines 97-101): sets `queryType` to "SELECT" and
appends the given columns to `selectCols`. -/
def SQLBuilder.Select (b : SQLBuilder) (columns : List String) : SQLBuilder :=
  { b with queryType := "SELECT", selectCols := b.selectCols ++ columns }

/-- Go source `From` (builder.go lines 108-111): sets `tableName`. -/
def SQLBuilder.From (b : SQLBuilder) (table : String) : SQLBuilder :=
  { b with tableName := table }

/-- Go source `Insert` (builder.go lines 118-122): sets `queryType` to "INSERT" and
`tableName` to the given table. -/
def SQLBuilder.Insert (b : SQLBuilder) (table : String) : SQLBuilder :=
  { b with queryType := "INSERT", tableName := table }

/-- Go source `Columns` (builder.go lines 129-132): appends to `insertCols`. -/
def SQLBuilder.Columns (b : SQLBuilder) (columns : List String) : SQLBuilder :=
  { b with insertCols := b.insertCols ++ columns }

/-- Go source `Values` (builder.go lines 140-143): appends to `values`. -/
def SQLBuilder.Values (b : SQLBuilder) (vals : List Val) : SQLBuilder :=
  { b with values := b.values ++ vals }

/-- Go source `Update` (builder.go lines 150-154): sets `queryType` to "UPDATE" and
`tableName` to the given table. -/
def SQLBuilder.Update (b : SQLBuilder) (table : String) : SQLBuilder :=
  { b with queryType := "UPDATE", tableName := table }

/-- Go source `Set` (builder.go lines 162-168): appends one `setClause` entry. -/
def SQLBuilder.Set (b : SQLBuilder) (clause : String) (args : List Val) : SQLBuilder :=
  { b with setClauses := b.setClauses ++ [⟨clause, args⟩] }

/-- Go source `Returning` (builder.go lines 170-173): appends to `returning`. -/
def SQLBuilder.Returning (b : SQLBuilder) (columns : List String) : SQLBuilder :=
  { b with returning := b.returning ++ columns }

/-- Go source `Delete` (builder.go lines 180-183): sets `queryType` to "DELETE". -/
def SQLBuilder.Delete (b : SQLBuilder) : SQLBuilder :=
  { b with queryType := "DELETE" }

/-- Go source `Where` (builder.go lines 191-197): appends one `whereCondition` entry. -/
def SQLBuilder.Where (b : SQLBuilder) (condition : String) (args : List Val) : SQLBuilder :=
  { b with whereConds := b.whereConds ++ [⟨condition, args⟩] }

/-- Go source `OrderBy` (builder.go lines 204-207): overwrites `orderByCol`. -/
def SQLBuilder.OrderBy (b : SQLBuilder) (column : String) : SQLBuilder :=
  { b with orderByCol := column }

/-- Go source `Limit` (builder.go lines 214-217): overwrites `limitVal`. -/
def SQLBuilder.Limit (b : SQLBuilder) (limit : Int) : SQLBuilder :=
  { b with limitVal := limit }

/-- Go source `Offset` (builder.go lines 224-227): overwrites `offsetVal`. -/
def SQLBuilder.Offset (b : SQLBuilder) (offset : Int) : SQLBuilder :=
  { b with offsetVal := offset }

/-- Decimal rendering of a non-negative Go `int`, as produced by Go's
`fmt.Sprintf` verb `%d` for the values the builder prints (the
placeholder counter, which is at least 1, and `limitVal` / `offsetVal`,
which are only printed when non-negative). -/
def natDec (n : Nat) : String := Nat.repr n

/-- The loop body of `replacePlaceholders` (builder.go lines 254-262):
the Go loop starts from `result = ""` and appends, for each byte of the
clause in order, either `$` followed by the current counter value (for
the byte `?`, incrementing the counter) or the byte itself.  This
recursion emits the same pieces in the same left-to-right order.  `?`
and `$` are ASCII, so the byte walk agrees with this character walk on
every UTF-8 clause. -/
def replaceChars : List Char → Nat → String × Nat
  | [], n => ("", n)
  | c :: rest, n =>
    if c = '?' then
      let r := replaceChars rest (n + 1)
      ("$" ++ natDec n ++ r.1, r.2)
    else
      let r := replaceChars rest n
      (c.toString ++ r.1, r.2)

/-- Go source `replacePlaceholders` (builder.go lines 253-264): replace each
occurrence of `?` in the clause with `$` followed by the current counter
value, incrementing the counter per occurrence.  Returns the rewritten
clause together with the final counter, mirroring Go's in-out pointer
argument `placeholderNum`. -/
def replacePlaceholders (clause : String) (placeholderNum : Nat) : String × Nat :=
  replaceChars clause.toList placeholderNum

/-- The renumbering loop shared verbatim by `buildSelect` (lines
288-293), `buildUpdate` (lines 360-364 for SET and 371-375 for WHERE)
and `buildDelete` (lines 400-404): walk the clause list in order,
rewriting each template with `replacePlaceholders` under one threaded
counter and appending each clause's argument list to the accumulated
arguments.  Returns the rewritten templates, the accumulated arguments
and the final counter. -/
def renumberClauses : List (String × List Val) → Nat → List String × List Val × Nat
  | [], n => ([], [], n)
  | (c, as) :: rest, n =>
    let p := replacePlaceholders c n
    let r := renumberClauses rest p.2
    (p.1 :: r.1, as ++ r.2.1, r.2.2)

/-- Go source `buildSelect` (builder.go lines 267-314). -/
def SQLBuilder.buildSelect (b : SQLBuilder) : String × List Val :=
  let q0 := "SELECT " ++
    (if b.selectCols.isEmpty then "*" else String.intercalate ", " b.selectCols)
  let q1 := if b.tableName = "" then q0 else q0 ++ " FROM " ++ b.tableName
  let w :=
    if b.whereConds.isEmpty then (q1, ([] : List Val))
    else
      let r := renumberClauses (b.whereConds.map fun c => (c.condition, c.args)) 1
      (q1 ++ " WHERE " ++ String.intercalate " AND " r.1, r.2.1)
  let q2 := if b.orderByCol = "" then w.1 else w.1 ++ " ORDER BY " ++ b.orderByCol
  let q3 := if b.limitVal ≥ 0 then q2 ++ " LIMIT " ++ natDec b.limitVal.toNat else q2
  let q4 := if b.offsetVal ≥ 0 then q3 ++ " OFFSET " ++ natDec b.offsetVal.toNat else q3
  (q4, w.2)

/-- Go source `buildInsert` (builder.go lines 317-346). -/
def SQLBuilder.buildInsert (b : SQLBuilder) : String × List Val :=
  let q0 := "INSERT INTO " ++ b.tableName
  let q1 :=
    if b.insertCols.isEmpty then q0
    else q0 ++ " (" ++ String.intercalate ", " b.insertCols ++ ")"
  let placeholders := (List.range b.values.length).map fun i => "$" ++ natDec (i + 1)
  let q2 := q1 ++ " VALUES (" ++ String.intercalate ", " placeholders ++ ")"
  let q3 :=
    if b.returning.isEmpty then q2
    else q2 ++ " RETURNING " ++ String.intercalate ", " b.returning
  (q3, b.values)

/-- Go source `buildUpdate` (builder.go lines 349-386): one placeholder counter is
initialised to 1 before the SET loop and threaded, still live, into the
WHERE loop. -/
def SQLBuilder.buildUpdate (b : SQLBuilder) : String × List Val :=
  let q0 := "UPDATE " ++ b.tableName
  let s :=
    if b.setClauses.isEmpty then (q0, ([] : List Val), 1)
    else
      let r := renumberClauses (b.setClauses.map fun c => (c.clause, c.args)) 1
      (q0 ++ " SET " ++ String.intercalate ", " r.1, r.2.1, r.2.2)
  let w :=
    if b.whereConds.isEmpty then (s.1, s.2.1)
    else
      let r := renumberClauses (b.whereConds.map fun c => (c.condition, c.args)) s.2.2
      (s.1 ++ " WHERE " ++ String.intercalate " AND " r.1, s.2.1 ++ r.2.1)
  let q1 :=
    if b.returning.isEmpty then w.1
    else w.1 ++ " RETURNING " ++ String.intercalate ", " b.returning
  (q1, w.2)

/-- Go source `buildDelete` (builder.go lines 389-415). -/
def SQLBuilder.buildDelete (b : SQLBuilder) : String × List Val :=
  let q0 := "DELETE FROM " ++ b.tableName
  let w :=
    if b.whereConds.isEmpty then (q0, ([] : List Val))
    else
      let r := renumberClauses (b.whereConds.map fun c => (c.condition, c.args)) 1
      (q0 ++ " WHERE " ++ String.intercalate " AND " r.1, r.2.1)
  let q1 :=
    if b.returning.isEmpty then w.1
    else w.1 ++ " RETURNING " ++ String.intercalate ", " b.returning
  (q1, w.2)

/-- Go source `Build` (builder.go lines 236-249): dispatch on `queryType`; any
other value (including the zero value "") yields `("", nil)`. -/
def SQLBuilder.Build (b : SQLBuilder) : String × List Val :=
  if b.queryType = "SELECT" then b.buildSelect
  else if b.queryType = "INSERT" then b.buildInsert
  else if b.queryType = "UPDATE" then b.buildUpdate
  else if b.queryType = "DELETE" then b.buildDelete
  else ("", [])

/-! ### Helper lemmas about the renumbering pass -/

theorem replaceChars_counter (l : List Char) :
    ∀ n : Nat, (replaceChars l n).2 = n + l.count '?' := by
  induction l with
  | nil => intro n; simp [replaceChars]
  | cons c rest ih =>
    intro n
    by_cases h : c = '?'
    · simp [replaceChars, h, ih (n + 1), List.count_cons]
      omega
    · simp [replaceChars, h, ih n, List.count_cons]

theorem renumberClauses_fst_length (cs : List (String × List Val)) :
    ∀ n : Nat, (renumberClauses cs n).1.length = cs.length := by
  induction cs with
  | nil => intro n; simp [renumberClauses]
  | cons c rest ih =>
    intro n
    cases c with
    | mk t as => simp [renumberClauses, ih]

theorem renumberClauses_args (cs : List (String × List Val)) :
    ∀ n : Nat, (renumberClauses cs n).2.1 = (cs.map Prod.snd).flatten := by
  induction cs with
  | nil => intro n; simp [renumberClauses]
  | cons c rest ih =>
    intro n
    cases c with
    | mk t as => simp [renumberClauses, ih]

theorem renumberClauses_append (xs ys : List (String × List Val)) :
    ∀ n : Nat,
      renumberClauses (xs ++ ys) n =
        ((renumberClauses xs n).1 ++ (renumberClauses ys (renumberClauses xs n).2.2).1,
          (renumberClauses xs n).2.1 ++ (renumberClauses ys (renumberClauses xs n).2.2).2.1,
          (renumberClauses ys (renumberClauses xs n).2.2).2.2) := by
  induction xs with
  | nil => intro n; simp [renumberClauses]
  | cons c rest ih =>
    intro n
    cases c with
    | mk t as => simp [renumberClauses, ih]

theorem buildSelect_args (b : SQLBuilder) :
    b.buildSelect.2 = (b.whereConds.map WhereCondition.args).flatten := by
  by_cases h : b.whereConds = []
  · simp [SQLBuilder.buildSelect, h]
  · simp [SQLBuilder.buildSelect, h, renumberClauses_args, List.map_map]
    rfl

theorem buildDelete_args (b : SQLBuilder) :
    b.buildDelete.2 = (b.whereConds.map WhereCondition.args).flatten := by
  by_cases h : b.whereConds = []
  · simp [SQLBuilder.buildDelete, h]
  · simp [SQLBuilder.buildDelete, h, renumberClauses_args, List.map_map]
    rfl

theorem buildUpdate_args (b : SQLBuilder) :
    b.buildUpdate.2 =
      (b.setClauses.map SetClause.args).flatten ++
        (b.whereConds.map WhereCondition.args).flatten := by
  by_cases hs : b.setClauses = [] <;> by_cases hw : b.whereConds = [] <;>
    simp [SQLBuilder.buildUpdate, hs, hw, renumberClauses_args, List.map_map] <;> rfl

/-! ### Claim theorems -/

/-- C3: the call chain Select("id","name").From("users").Where("age > ?", 18)
.Where("status = ?", "active").OrderBy("created_at DESC").Limit(10)
.Offset(20).Build() on a fresh builder returns the text
"SELECT id, name FROM users WHERE age > $1 AND status = $2 ORDER BY created_at DESC LIMIT 10 OFFSET 20"
and the argument list [18, "active"]. -/
theorem select_end_to_end_scenario :
    ((((((NewSQLBuilder.Select ["id", "name"]).From "users").Where "age > ?"
        [Val.int 18]).Where "status = ?" [Val.str "active"]).OrderBy
        "created_at DESC").Limit 10 |>.Offset 20).Build =
      ("SELECT id, name FROM users WHERE age > $1 AND status = $2 ORDER BY created_at DESC LIMIT 10 OFFSET 20",
        [Val.int 18, Val.str "active"]) := by decide

/-- C5: Build() never fails: every builder state renders to a
(text, arguments) pair, and when the statement kind is still unset (the
zero value "", as on a fresh builder where no entry method was called)
Build() returns the empty string and the empty argument list rather than
an error. -/
theorem build_never_fails_unset_empty (b : SQLBuilder) :
    (∃ text args, b.Build = (text, args)) ∧
      (b.queryType = "" → b.Build = ("", [])) := by
  refine ⟨⟨b.Build.1, b.Build.2, rfl⟩, fun h => ?_⟩
  simp [SQLBuilder.Build, h]

/-- Witness for C5: the fresh builder has unset statement kind and
renders to the empty pair. -/
theorem build_never_fails_unset_empty_witness :
    NewSQLBuilder.Build = ("", []) :=
  (build_never_fails_unset_empty NewSQLBuilder).2 rfl

/-- State-passing form of `Build` (builder.go lines 236-249): the method
reads the receiver's fields through the pointer and dispatches to
`buildSelect` / `buildInsert` / `buildUpdate` / `buildDelete`; no
statement in `Build` or in any of those helpers assigns to a field of
the receiver, so the receiver's post-state is its pre-state. -/
def SQLBuilder.BuildSt (b : SQLBuilder) : (String × List Val) × SQLBuilder :=
  (b.Build, b)

/-- C6: Build() is a pure read of the builder state: rendering leaves
every stored field unchanged, and calling Build() twice with no
intervening mutation yields identical query text, argument list and
final state. -/
theorem build_pure_and_idempotent (b : SQLBuilder) :
    b.BuildSt.2 = b ∧
      b.BuildSt.2.BuildSt.1 = b.BuildSt.1 ∧
      b.BuildSt.2.BuildSt.2 = b :=
  ⟨rfl, rfl, rfl⟩

/-- C7: non-conflicting fluent calls commute: from any builder state,
calling Select before Where yields the same rendered (text, arguments)
pair as calling Where before Select, and likewise for the other
non-conflicting pairs From/Where, Set/Where, OrderBy/Where and
Limit/Offset, for all parameters. -/
theorem nonconflicting_calls_commute (b : SQLBuilder) (cols : List String)
    (cond : String) (args : List Val) (tbl expr scl : String)
    (sargs : List Val) (n m : Int) :
    ((b.Select cols).Where cond args).Build =
        ((b.Where cond args).Select cols).Build ∧
      ((b.From tbl).Where cond args).Build =
        ((b.Where cond args).From tbl).Build ∧
      ((b.Set scl sargs).Where cond args).Build =
        ((b.Where cond args).Set scl sargs).Build ∧
      ((b.OrderBy expr).Where cond args).Build =
        ((b.Where cond args).OrderBy expr).Build ∧
      ((b.Limit n).Offset m).Build = ((b.Offset m).Limit n).Build :=
  ⟨rfl, rfl, rfl, rfl, rfl⟩

/-- A branch point: a partially built query from which two continuations
branch.  In the Go source every fluent method takes the receiver as
`*SQLBuilder`, mutates the pointed-to struct in place and returns that
same pointer, so both continuations hold the same pointer and alias one
shared `SQLBuilder` cell: the state either sibling observes is whatever
the shared cell currently holds. -/
def branchPoint : SQLBuilder := (NewSQLBuilder.Select ["id"]).From "t"

/-- The shared cell after one continuation appends a Where clause; this
is now also the state observed by the sibling continuation that branched
at `branchPoint`. -/
def cellAfterAppend : SQLBuilder := branchPoint.Where "x = ?" [Val.int 1]

/-- Counterexample to C8: appending a Where clause in one continuation
changes the shared cell, and with it the state and the Build() output
observed by the sibling continuation that branched at the same point. -/
theorem branch_append_changes_sibling_view :
    cellAfterAppend ≠ branchPoint ∧
      cellAfterAppend.Build ≠ branchPoint.Build := by decide

/-- C8 amended: because all continuations alias one shared cell,
appending a further Where clause always extends the stored condition
list and always changes the builder state observed by a sibling
continuation branched at the same point; branch isolation requires an
explicit copy. -/
theorem branch_append_mutates_shared_cell (b : SQLBuilder) (cond : String)
    (args : List Val) :
    (b.Where cond args).whereConds = b.whereConds ++ [⟨cond, args⟩] ∧
      b.Where cond args ≠ b := by
  refine ⟨rfl, fun h => ?_⟩
  have hlen := congrArg (fun x => x.whereConds.length) h
  simp [SQLBuilder.Where] at hlen

/-- Witness for C8's amended statement at the concrete branch point. -/
theorem branch_append_mutates_shared_cell_witness :
    (branchPoint.Where "x = ?" [Val.int 1]).whereConds =
        branchPoint.whereConds ++ [⟨"x = ?", [Val.int 1]⟩] ∧
      branchPoint.Where "x = ?" [Val.int 1] ≠ branchPoint :=
  branch_append_mutates_shared_cell branchPoint "x = ?" [Val.int 1]

/-- The ASCII single-quote character, used to build clause templates that
contain a quoted SQL string literal. -/
def sqChar : Char := Char.ofNat 39

/-- C9: the renumbering pass replaces every occurrence of the byte `?`
with the next positional marker and increments the shared counter — the
final counter always advances by exactly the number of `?` occurrences —
and it makes no exception for a literal `?` inside a quoted string
literal: in the template "tag = '?' AND id = ?" the quoted `?` is
renumbered to $1 and consumes a counter position, so the real
placeholder receives $2. -/
theorem replace_every_marker :
    (∀ (clause : String) (n : Nat),
        (replacePlaceholders clause n).2 = n + clause.toList.count '?') ∧
      replacePlaceholders
          ("tag = " ++ String.singleton sqChar ++ "?" ++ String.singleton sqChar
            ++ " AND id = ?") 1 =
        ("tag = " ++ String.singleton sqChar ++ "$1" ++ String.singleton sqChar
            ++ " AND id = $2", 3) := by
  constructor
  · intro clause n
    exact replaceChars_counter clause.toList n
  · decide

/-- C2: for an Update statement with SET and WHERE clauses, one
placeholder counter starts at 1, advances across the SET clause
templates in append order, and continues without restarting across the
WHERE clause templates in append order: the rendered statement equals
the one obtained by renumbering the concatenated SET-then-WHERE clause
list in a single pass starting at 1, the SET section taking the first
`setClauses.length` rewritten templates and the WHERE section the rest,
with the argument list of that single pass. -/
theorem update_counter_continuous (b : SQLBuilder)
    (hq : b.queryType = "UPDATE") (hs : b.setClauses ≠ [])
    (hw : b.whereConds ≠ []) :
    b.Build =
      (let r := renumberClauses
          (b.setClauses.map (fun c => (c.clause, c.args))
            ++ b.whereConds.map (fun c => (c.condition, c.args))) 1
       let base := "UPDATE " ++ b.tableName ++ " SET "
          ++ String.intercalate ", " (r.1.take b.setClauses.length)
          ++ " WHERE " ++ String.intercalate " AND " (r.1.drop b.setClauses.length)
       (if b.returning.isEmpty then base
        else base ++ " RETURNING " ++ String.intercalate ", " b.returning,
        r.2.1)) := by
  have hs' : b.setClauses.isEmpty = false := by
    cases hsc : b.setClauses with
    | nil => exact absurd hsc hs
    | cons a l => rfl
  have hw' : b.whereConds.isEmpty = false := by
    cases hwc : b.whereConds with
    | nil => exact absurd hwc hw
    | cons a l => rfl
  have hbuild : b.Build = b.buildUpdate := by
    simp [SQLBuilder.Build, hq]
  have hlen : (renumberClauses
      (b.setClauses.map fun c => (c.clause, c.args)) 1).1.length =
      b.setClauses.length := by
    rw [renumberClauses_fst_length, List.length_map]
  rw [hbuild]
  simp only [SQLBuilder.buildUpdate, hs', hw', Bool.false_eq_true, if_false,
    renumberClauses_append, List.take_left' hlen, List.drop_left' hlen]

/-- The update chain of C2's concrete scenario. -/
def updTBuilder : SQLBuilder :=
  (((NewSQLBuilder.Update "t").Set "a = ?" [Val.int 1]).Set "b = ?"
    [Val.int 2]).Where "id = ?" [Val.int 3]

/-- Witness for C2: Update("t").Set("a = ?", 1).Set("b = ?", 2)
.Where("id = ?", 3).Build() returns
"UPDATE t SET a = $1, b = $2 WHERE id = $3" with arguments [1, 2, 3]. -/
theorem update_counter_continuous_witness :
    updTBuilder.Build =
      ("UPDATE t SET a = $1, b = $2 WHERE id = $3",
        [Val.int 1, Val.int 2, Val.int 3]) := by
  have h := update_counter_continuous updTBuilder (by decide) (by decide)
    (by decide)
  exact h.trans (by decide)

/-- C1: when each appended Where/Set clause supplies exactly as many
argument values as `?` markers appear in its template, the argument list
returned by Build() is the concatenation of the clause argument lists in
append order (SET before WHERE for Update), and its length equals the
number of `?` markers consumed from the templates used by the statement
kind (or the count of supplied values for Insert, whose argument list is
the accumulated values). -/
theorem build_args_match_markers (b : SQLBuilder)
    (hset : ∀ c ∈ b.setClauses, c.args.length = c.clause.toList.count '?')
    (hwh : ∀ c ∈ b.whereConds, c.args.length = c.condition.toList.count '?') :
    ((b.queryType = "SELECT" ∨ b.queryType = "DELETE") →
        b.Build.2 = (b.whereConds.map WhereCondition.args).flatten ∧
          b.Build.2.length =
            (b.whereConds.map fun c => c.condition.toList.count '?').sum) ∧
      (b.queryType = "UPDATE" →
        b.Build.2 = (b.setClauses.map SetClause.args).flatten ++
            (b.whereConds.map WhereCondition.args).flatten ∧
          b.Build.2.length =
            (b.setClauses.map fun c => c.clause.toList.count '?').sum +
              (b.whereConds.map fun c => c.condition.toList.count '?').sum) ∧
      (b.queryType = "INSERT" → b.Build.2 = b.values) := by
  have hwlen : ((b.whereConds.map WhereCondition.args).flatten).length =
      (b.whereConds.map fun c => c.condition.toList.count '?').sum := by
    rw [List.length_flatten, List.map_map]
    exact congrArg List.sum (List.map_congr_left fun c hc => hwh c hc)
  have hslen : ((b.setClauses.map SetClause.args).flatten).length =
      (b.setClauses.map fun c => c.clause.toList.count '?').sum := by
    rw [List.length_flatten, List.map_map]
    exact congrArg List.sum (List.map_congr_left fun c hc => hset c hc)
  refine ⟨?_, ?_, ?_⟩
  · rintro (h | h)
    · have hb : b.Build = b.buildSelect := by simp [SQLBuilder.Build, h]
      rw [hb, buildSelect_args]
      exact ⟨rfl, hwlen⟩
    · have hb : b.Build = b.buildDelete := by simp [SQLBuilder.Build, h]
      rw [hb, buildDelete_args]
      exact ⟨rfl, hwlen⟩
  · intro h
    have hb : b.Build = b.buildUpdate := by simp [SQLBuilder.Build, h]
    rw [hb, buildUpdate_args]
    refine ⟨rfl, ?_⟩
    rw [List.length_append, hslen, hwlen]
  · intro h
    have hb : b.Build = b.buildInsert := by simp [SQLBuilder.Build, h]
    rw [hb]
    rfl

/-- A SELECT chain whose single Where clause carries two markers and two
arguments, used to witness C1. -/
def selWBuilder : SQLBuilder :=
  (NewSQLBuilder.Select ["a"]).Where "x = ? AND y = ?" [Val.int 1, Val.int 2]

/-- Witness for C1 at a concrete SELECT builder: two markers, two
arguments, in clause order. -/
theorem build_args_match_markers_witness :
    selWBuilder.Build.2 = (selWBuilder.whereConds.map WhereCondition.args).flatten ∧
      selWBuilder.Build.2.length =
        (selWBuilder.whereConds.map fun c => c.condition.toList.count '?').sum :=
  (build_args_match_markers selWBuilder (by decide) (by decide)).1 (Or.inl rfl)

/-! ### Counting characters of the rendered text -/

/-- Number of occurrences of a character in a string; a `$` count over
the rendered text counts the emitted positional placeholders whenever
the caller-supplied identifiers contain no `$`. -/
def countChar (ch : Char) (s : String) : Nat := s.data.count ch

theorem countChar_append (ch : Char) (s t : String) :
    countChar ch (s ++ t) = countChar ch s + countChar ch t := by
  simp [countChar]

theorem digitChar_ne_dollar (m : Nat) : Nat.digitChar m ≠ '$' := by
  rcases Nat.lt_or_ge m 16 with h16 | h16
  · interval_cases m <;> decide
  · have hstar : Nat.digitChar m = '*' := by
      unfold Nat.digitChar
      repeat rw [if_neg (by omega)]
    rw [hstar]; decide

theorem toDigitsCore_chars (fuel : Nat) :
    ∀ (n : Nat) (acc : List Char), ∀ c ∈ Nat.toDigitsCore 10 fuel n acc,
      c ∈ acc ∨ ∃ m, c = Nat.digitChar m := by
  induction fuel with
  | zero => intro n acc c hc; exact Or.inl hc
  | succ fuel ih =>
    intro n acc c hc
    simp only [Nat.toDigitsCore] at hc
    split at hc
    · rcases List.mem_cons.mp hc with h | h
      · exact Or.inr ⟨n % 10, h⟩
      · exact Or.inl h
    · rcases ih (n / 10) (Nat.digitChar (n % 10) :: acc) c hc with h | h
      · rcases List.mem_cons.mp h with h' | h'
        · exact Or.inr ⟨n % 10, h'⟩
        · exact Or.inl h'
      · exact Or.inr h

theorem countChar_natDec_dollar (n : Nat) : countChar '$' (natDec n) = 0 := by
  rw [countChar, List.count_eq_zero]
  intro hmem
  have hmem' : '$' ∈ Nat.toDigitsCore 10 (n + 1) n [] := hmem
  rcases toDigitsCore_chars (n + 1) n [] '$' hmem' with h | ⟨m, hm⟩
  · simp at h
  · exact digitChar_ne_dollar m hm.symm

theorem countChar_intercalate_go (ch : Char) (sep : String)
    (hsep : countChar ch sep = 0) (as : List String) :
    ∀ acc : String,
      countChar ch (String.intercalate.go acc sep as) =
        countChar ch acc + (as.map (countChar ch)).sum := by
  induction as with
  | nil => intro acc; simp [String.intercalate.go]
  | cons a as ih =>
    intro acc
    rw [String.intercalate.go, ih (acc ++ sep ++ a)]
    simp [countChar_append, hsep]
    omega

theorem countChar_intercalate (ch : Char) (sep : String)
    (hsep : countChar ch sep = 0) (l : List String) :
    countChar ch (String.intercalate sep l) = (l.map (countChar ch)).sum := by
  cases l with
  | nil => simp [String.intercalate]; rfl
  | cons a as =>
    rw [String.intercalate, countChar_intercalate_go ch sep hsep as a]
    simp

theorem countChar_placeholder_list (n : Nat) :
    countChar '$' (String.intercalate ", "
      ((List.range n).map fun i => "$" ++ natDec (i + 1))) = n := by
  rw [countChar_intercalate '$' ", " (by decide), List.map_map]
  have h1 : ∀ i ∈ List.range n,
      (countChar '$' ∘ fun i => "$" ++ natDec (i + 1)) i = 1 := by
    intro i _
    have h2 : countChar '$' ("$" ++ natDec (i + 1)) = 1 := by
      rw [countChar_append, countChar_natDec_dollar]
      decide
    simpa [Function.comp] using h2
  rw [List.map_congr_left h1]
  simp

theorem countChar_zero_list (l : List String)
    (h : ∀ s ∈ l, countChar '$' s = 0) :
    countChar '$' (String.intercalate ", " l) = 0 := by
  rw [countChar_intercalate '$' ", " (by decide)]
  apply List.sum_eq_zero
  intro x hx
  rcases List.mem_map.mp hx with ⟨s, hs, rfl⟩
  exact h s hs

theorem countChar_buildInsert (b : SQLBuilder)
    (ht : countChar '$' b.tableName = 0)
    (hc : ∀ s ∈ b.insertCols, countChar '$' s = 0)
    (hr : ∀ s ∈ b.returning, countChar '$' s = 0) :
    countChar '$' b.buildInsert.1 = b.values.length := by
  have hcols := countChar_zero_list b.insertCols hc
  have hret := countChar_zero_list b.returning hr
  have hph := countChar_placeholder_list b.values.length
  have l1 : countChar '$' "INSERT INTO " = 0 := by decide
  have l2 : countChar '$' " (" = 0 := by decide
  have l3 : countChar '$' ")" = 0 := by decide
  have l4 : countChar '$' " VALUES (" = 0 := by decide
  have l5 : countChar '$' " RETURNING " = 0 := by decide
  by_cases h1 : b.insertCols.isEmpty <;> by_cases h2 : b.returning.isEmpty <;>
    simp [SQLBuilder.buildInsert, h1, h2, countChar_append, ht, hcols, hret,
      hph, l1, l2, l3, l4, l5]

theorem append_merge_returning (s : String) :
    (")" : String) ++ (" RETURNING " ++ s) = ") RETURNING " ++ s := by
  rw [← String.append_assoc]
  congr 1

theorem append_merge_values (s : String) :
    (")" : String) ++ (" VALUES (" ++ s) = ") VALUES (" ++ s := by
  rw [← String.append_assoc]
  congr 1

theorem buildInsert_values_decomp (b : SQLBuilder) :
    ∃ pre suf, b.buildInsert.1 =
      pre ++ " VALUES (" ++ String.intercalate ", "
        ((List.range b.values.length).map fun i => "$" ++ natDec (i + 1)) ++
        ")" ++ suf := by
  refine ⟨"INSERT INTO " ++ b.tableName ++
      (if b.insertCols.isEmpty then ""
       else " (" ++ String.intercalate ", " b.insertCols ++ ")"),
    (if b.returning.isEmpty then ""
     else " RETURNING " ++ String.intercalate ", " b.returning), ?_⟩
  by_cases h1 : b.insertCols.isEmpty <;> by_cases h2 : b.returning.isEmpty <;>
    simp [SQLBuilder.buildInsert, h1, h2, String.append_assoc,
      append_merge_returning]

/-- C4: for every Insert builder (whether or not Columns was called and
independent of any renumbering pass), the rendered text carries exactly
`values.length` placeholders — its `$` count, when the caller-supplied
identifiers contain no `$`, equals the number of supplied values — the
VALUES section lists the placeholders generated directly from each
value's 1-based position, and the returned argument list is exactly the
accumulated values in supply order. -/
theorem insert_placeholders_match_values (b : SQLBuilder)
    (hq : b.queryType = "INSERT")
    (ht : countChar '$' b.tableName = 0)
    (hc : ∀ s ∈ b.insertCols, countChar '$' s = 0)
    (hr : ∀ s ∈ b.returning, countChar '$' s = 0) :
    b.Build.2 = b.values ∧
      countChar '$' b.Build.1 = b.values.length ∧
      ∃ pre suf, b.Build.1 =
        pre ++ " VALUES (" ++ String.intercalate ", "
          ((List.range b.values.length).map fun i => "$" ++ natDec (i + 1)) ++
          ")" ++ suf := by
  have hb : b.Build = b.buildInsert := by simp [SQLBuilder.Build, hq]
  refine ⟨by rw [hb]; rfl, ?_, ?_⟩
  · rw [hb]
    exact countChar_buildInsert b ht hc hr
  · rw [hb]
    exact buildInsert_values_decomp b

/-- The insert chain used to witness C4: columns supplied, two values. -/
def insBuilder : SQLBuilder :=
  ((NewSQLBuilder.Insert "products").Columns ["name", "price"]).Values
    [Val.str "x", Val.int 5]

/-- Witness for C4 at a concrete Insert builder with a column list and
two values. -/
theorem insert_placeholders_match_values_witness :
    insBuilder.Build.2 = insBuilder.values ∧
      countChar '$' insBuilder.Build.1 = insBuilder.values.length ∧
      ∃ pre suf, insBuilder.Build.1 =
        pre ++ " VALUES (" ++ String.intercalate ", "
          ((List.range insBuilder.values.length).map fun i =>
            "$" ++ natDec (i + 1)) ++ ")" ++ suf :=
  insert_placeholders_match_values insBuilder rfl (by decide) (by decide)
    (by decide)

/-- C10: for every Insert builder, Build() unconditionally emits the
" VALUES ( ... )" section; with no Values calls (and no columns or
RETURNING) it renders "INSERT INTO <table> VALUES ()" with an empty
argument list; and the column-list parenthetical appears exactly when at
least one insert column was supplied. -/
theorem insert_values_unconditional (b : SQLBuilder)
    (hq : b.queryType = "INSERT") :
    (∃ pre suf, b.Build.1 =
        pre ++ " VALUES (" ++ String.intercalate ", "
          ((List.range b.values.length).map fun i => "$" ++ natDec (i + 1)) ++
          ")" ++ suf) ∧
      (b.values = [] → b.insertCols = [] → b.returning = [] →
        b.Build = ("INSERT INTO " ++ b.tableName ++ " VALUES ()", [])) ∧
      (b.insertCols ≠ [] → ∃ suf, b.Build.1 =
        "INSERT INTO " ++ b.tableName ++ " (" ++
          String.intercalate ", " b.insertCols ++ ")" ++ suf) ∧
      (b.insertCols = [] → ∃ suf,
        b.Build.1 = "INSERT INTO " ++ b.tableName ++ " VALUES (" ++ suf) := by
  have hb : b.Build = b.buildInsert := by simp [SQLBuilder.Build, hq]
  refine ⟨by rw [hb]; exact buildInsert_values_decomp b, ?_, ?_, ?_⟩
  · intro hv hcnil hrnil
    have hlit : (" VALUES (" : String) ++ ")" = " VALUES ()" := by decide
    rw [hb]
    simp [SQLBuilder.buildInsert, hv, hcnil, hrnil, String.append_assoc,
      String.intercalate, hlit]
  · intro hcne
    have h1 : b.insertCols.isEmpty = false := by
      cases hcc : b.insertCols with
      | nil => exact absurd hcc hcne
      | cons a l => rfl
    refine ⟨" VALUES (" ++ String.intercalate ", "
        ((List.range b.values.length).map fun i => "$" ++ natDec (i + 1)) ++
        ")" ++
        (if b.returning.isEmpty then ""
         else " RETURNING " ++ String.intercalate ", " b.returning), ?_⟩
    rw [hb]
    by_cases h2 : b.returning.isEmpty <;>
      simp [SQLBuilder.buildInsert, h1, h2, String.append_assoc,
        append_merge_values, append_merge_returning]
  · intro hcnil
    refine ⟨String.intercalate ", "
        ((List.range b.values.length).map fun i => "$" ++ natDec (i + 1)) ++
        ")" ++
        (if b.returning.isEmpty then ""
         else " RETURNING " ++ String.intercalate ", " b.returning), ?_⟩
    rw [hb]
    by_cases h2 : b.returning.isEmpty <;>
      simp [SQLBuilder.buildInsert, hcnil, h2, String.append_assoc,
        append_merge_returning]

/-- Witness for C10: a fresh Insert with no Values, Columns or Returning
calls renders "INSERT INTO t VALUES ()" with an empty argument list. -/
theorem insert_values_unconditional_witness :
    (NewSQLBuilder.Insert "t").Build = ("INSERT INTO t VALUES ()", []) := by
  have h := (insert_values_unconditional (NewSQLBuilder.Insert "t")
    rfl).2.1 rfl rfl rfl
  exact h.trans (by decide)
